import Mathlib

/-!
Verification development for the 2buntu blog JSON API layer
(`twobuntu/api/v1_2/views.py`): a shallow embedding of the object
encoder, the decorator pipeline stages (pagination, date-range
filtering, endpoint rendering/error translation) and the resource
functions, together with theorems settling the specified properties.
-/

set_option maxHeartbeats 1000000

namespace TwoBuntu

/-! ## Python primitives -/

/-- Digits of a decimal numeral to a natural number; `none` unless the
character list is a nonempty run of ASCII digits. -/
def digitsToNat (cs : List Char) : Option Nat :=
  if cs = [] then none
  else if cs.all Char.isDigit then
    some (cs.foldl (fun acc c => acc * 10 + (c.toNat - 48)) 0)
  else none

/-- Python's notion of whitespace stripped by `int()`. -/
def isPySpace (c : Char) : Bool :=
  c = ' ' || c = '\t' || c = '\n' || c = '\x0d'

/-- Strip leading and trailing whitespace from a character list. -/
def stripChars (cs : List Char) : List Char :=
  ((cs.dropWhile isPySpace).reverse.dropWhile isPySpace).reverse

/-- Model of Python `int(s)` on a base-10 string: surrounding whitespace
is stripped, an optional single sign is allowed, then a nonempty digit
run; anything else raises `ValueError`, modelled as `none`. -/
def pyInt (s : String) : Option Int :=
  match stripChars s.toList with
  | '-' :: cs => (digitsToNat cs).map (fun n => -(n : Int))
  | '+' :: cs => (digitsToNat cs).map (fun n => (n : Int))
  | cs => (digitsToNat cs).map (fun n => (n : Int))

/-- Model of the Python slice `xs[a:b]` for non-negative bounds `a`, `b`:
the elements at indices `i` with `a ≤ i < min b xs.length`; out-of-range
bounds clamp, an empty range yields `[]`, never an error. -/
def pySlice (xs : List α) (a b : Nat) : List α :=
  (xs.take b).drop a

/-- Exceptions that can travel through the request pipeline.
`apiException` models the module's `APIException` (the base of all API
exceptions, carrying a message); `typeError` models the `TypeError`
raised by `JSONEncoder.default` on an unsupported object; `nameError`
models Python's `NameError` on evaluating an unbound name. -/
inductive PyExc where
  | apiException (msg : String)
  | typeError (msg : String)
  | nameError (name : String)
deriving DecidableEq, Repr

/-! ## JSON values and serialization -/

/-- JSON-serializable values, as produced by `json.dumps` with the
module's `ObjectEncoder`. Objects keep their fields in insertion
order. -/
inductive JValue where
  | jnull
  | jbool (b : Bool)
  | jint (n : Int)
  | jstr (s : String)
  | jarr (xs : List JValue)
  | jobj (fields : List (String × JValue))
deriving Repr

/-- Escape a string for inclusion in a JSON text (the characters the
payloads of this module can contain). -/
def escapeChar (c : Char) : String :=
  if c = '"' then "\\\""
  else if c = '\\' then "\\\\"
  else if c = '\n' then "\\n"
  else if c = '\t' then "\\t"
  else String.singleton c

def escapeString (s : String) : String :=
  String.join (s.toList.map escapeChar)

mutual

/-- Model of Python `json.dumps` with its default separators
`(", ", ": ")`. -/
def dumps : JValue → String
  | .jnull => "null"
  | .jbool true => "true"
  | .jbool false => "false"
  | .jint n => toString n
  | .jstr s => "\"" ++ escapeString s ++ "\""
  | .jarr xs => "[" ++ dumpsList xs ++ "]"
  | .jobj fs => "\x7b" ++ dumpsFields fs ++ "\x7d"

def dumpsList : List JValue → String
  | [] => ""
  | [x] => dumps x
  | x :: y :: xs => dumps x ++ ", " ++ dumpsList (y :: xs)

def dumpsFields : List (String × JValue) → String
  | [] => ""
  | [(k, v)] => "\"" ++ escapeString k ++ "\": " ++ dumps v
  | (k, v) :: f :: fs =>
      "\"" ++ escapeString k ++ "\": " ++ dumps v ++ ", " ++ dumpsFields (f :: fs)

end

def indentStr (n : Nat) : String := String.mk (List.replicate n ' ')

mutual

/-- Model of Python `json.dumps(·, indent=4)` at nesting level `lvl`:
each container item on its own line, indented four further spaces. -/
def dumpsIndentAt : Nat → JValue → String
  | _, .jnull => "null"
  | _, .jbool true => "true"
  | _, .jbool false => "false"
  | _, .jint n => toString n
  | _, .jstr s => "\"" ++ escapeString s ++ "\""
  | _, .jarr [] => "[]"
  | lvl, .jarr (x :: xs) =>
      "[\n" ++ dumpsIndentList (lvl + 4) (x :: xs) ++ "\n" ++ indentStr lvl ++ "]"
  | _, .jobj [] => "\x7b\x7d"
  | lvl, .jobj (f :: fs) =>
      "\x7b\n" ++ dumpsIndentFields (lvl + 4) (f :: fs) ++ "\n" ++ indentStr lvl ++ "\x7d"

def dumpsIndentList : Nat → List JValue → String
  | _, [] => ""
  | lvl, [x] => indentStr lvl ++ dumpsIndentAt lvl x
  | lvl, x :: y :: xs =>
      indentStr lvl ++ dumpsIndentAt lvl x ++ ",\n" ++ dumpsIndentList lvl (y :: xs)

def dumpsIndentFields : Nat → List (String × JValue) → String
  | _, [] => ""
  | lvl, [(k, v)] => indentStr lvl ++ "\"" ++ escapeString k ++ "\": " ++ dumpsIndentAt lvl v
  | lvl, (k, v) :: f :: fs =>
      indentStr lvl ++ "\"" ++ escapeString k ++ "\": " ++ dumpsIndentAt lvl v ++ ",\n" ++
        dumpsIndentFields lvl (f :: fs)

end

def dumpsIndent (v : JValue) : String := dumpsIndentAt 0 v

/-! ## Domain model

The model classes (`twobuntu.articles.models.Article`,
`twobuntu.accounts.models.Profile`, `twobuntu.categories.models.Category`)
live outside this module; the structures below carry exactly the
observables `views.py` reads from them. -/

/-- Modelled from the spec: the `Article.status` field — "status
(draft/published — only published items are visible through this API)";
the model class itself is external to the module under study. -/
inductive ArticleStatus where
  | draft
  | published
deriving DecidableEq, Repr

/-- The user behind `article.author`: `views.py` reads `.id`, `unicode(·)`
and `.email`. -/
structure Author where
  id : Int
  name : String
  email : String
deriving DecidableEq, Repr

/-- The category referenced by `article.category`: `views.py` reads `.id`
and `.name`. -/
structure CategoryRef where
  id : Int
  name : String
deriving DecidableEq, Repr

/-- An article row as observed by `views.py`: `id`, `title`, `author`,
`category`, `render()` (the rendered body), `cc_license`,
`timegm(date.utctimetuple())` (held as integer seconds since epoch) and
the `status` used by the resource-function filters. -/
structure Article where
  id : Int
  title : String
  author : Author
  category : CategoryRef
  renderedBody : String
  cc_license : Bool
  date : Int
  status : ArticleStatus
deriving DecidableEq, Repr

/-- A profile row as observed by `views.py`: `user.id`, `unicode(·)`,
the user's `email`, `age()`, `location`, `website`, `bio` and
`timegm(user.last_login.utctimetuple())` (integer seconds). -/
structure Profile where
  userId : Int
  name : String
  email : String
  age : Int
  location : String
  website : String
  bio : String
  lastLogin : Int
deriving DecidableEq, Repr

/-- A category row (`id`, `name`); the `num_articles` annotation is added
by the `categories` resource function. -/
structure CategoryRow where
  id : Int
  name : String
deriving DecidableEq, Repr

/-- A category as it reaches the encoder: the row plus the `num_articles`
annotation computed by `annotate(num_articles=Count('article'))`. -/
structure Category where
  id : Int
  name : String
  num_articles : Int
deriving DecidableEq, Repr

/-- The object variants that can reach `ObjectEncoder.default`:
`QuerySet`, `Article`, `Category`, `Profile`, or anything else
(`unknown`), on which `JSONEncoder.default` raises `TypeError`. -/
inductive ApiObject where
  | article (a : Article)
  | category (c : Category)
  | profile (p : Profile)
  | querySet (xs : List ApiObject)
  | unknown (tag : String)

/-! ## The encoder (`ObjectEncoder`)

`md5hex` is the `md5(·).hexdigest()` function from `hashlib`, taken as a
parameter of the embedding: every theorem below holds for an arbitrary
hash function, so nothing depends on MD5 internals — only on which
string is fed to it. -/

/-- `ObjectEncoder._encode_article`. -/
def encodeArticle (md5hex : String → String) (a : Article) : JValue :=
  .jobj [("id", .jint a.id),
         ("title", .jstr a.title),
         ("author", .jobj [("id", .jint a.author.id),
                           ("name", .jstr a.author.name),
                           ("email_hash", .jstr (md5hex a.author.email))]),
         ("category", .jobj [("id", .jint a.category.id),
                             ("name", .jstr a.category.name)]),
         ("body", .jstr a.renderedBody),
         ("cc_license", .jbool a.cc_license),
         ("date", .jint a.date)]

/-- `ObjectEncoder._encode_category`. -/
def encodeCategory (c : Category) : JValue :=
  .jobj [("id", .jint c.id),
         ("name", .jstr c.name),
         ("articles", .jint c.num_articles)]

/-- `ObjectEncoder._encode_profile`. The source builds the dict entries
in order: `'id'` and `'name'` evaluate from `profile`, but the
`'email_hash'` entry evaluates `md5(article.author.email)` — and the
name `article` is bound in no enclosing scope of `_encode_profile`
(locals, the module's globals and builtins all lack it), so evaluating
the dict literal raises `NameError: article` before any mapping is
produced. -/
def encodeProfile (_md5hex : String → String) (_p : Profile) :
    Except PyExc JValue :=
  .error (.nameError "article")

mutual

/-- `ObjectEncoder.default` together with `json.dumps`'s native handling
of lists: a `QuerySet` becomes the array of its recursively encoded
elements, the three known model variants dispatch to their `_encode_*`
method, and anything else falls through to `JSONEncoder.default`, which
raises `TypeError`. -/
def encodeObject (md5hex : String → String) : ApiObject → Except PyExc JValue
  | .article a => .ok (encodeArticle md5hex a)
  | .category c => .ok (encodeCategory c)
  | .profile p => encodeProfile md5hex p
  | .querySet xs => (encodeQuerySet md5hex xs).map JValue.jarr
  | .unknown tag =>
      .error (.typeError (tag ++ " is not JSON serializable"))

def encodeQuerySet (md5hex : String → String) :
    List ApiObject → Except PyExc (List JValue)
  | [] => .ok []
  | x :: xs =>
      match encodeObject md5hex x with
      | .error e => .error e
      | .ok v =>
          match encodeQuerySet md5hex xs with
          | .error e => .error e
          | .ok vs => .ok (v :: vs)

end

/-! ## Requests, responses and the pipeline stages -/

/-- The query parameters of a request that `views.py` consults
(`request.GET`); `none` means the parameter is absent. -/
structure Request where
  page : Option String := none
  size : Option String := none
  min : Option String := none
  max : Option String := none
  debug : Option String := none
  callback : Option String := none
deriving DecidableEq, Repr

/-- The response produced by the `endpoint` wrapper: either the rendered
debug template (carrying the template name, the page title and the
pretty-printed JSON) or an `HttpResponse` with a body and a content
type. -/
inductive Response where
  | debugView (template : String) (title : String) (prettyJson : String)
  | http (body : String) (contentType : String)
deriving DecidableEq, Repr

/-- A pipeline stage: a request-processing function returning the
collection, or raising an exception. The resource functions and the
`paginate`/`minmax` wrappers all have this shape. -/
def Stage (α : Type) : Type := Request → Except PyExc (List α)

/-- The fixed message of `paginate`'s `APIException`. -/
def pageSizeErrorMsg : String := "Invalid page and/or size parameter specified."

/-- The fixed message of `minmax`'s `APIException`. -/
def minMaxErrorMsg : String := "Invalid min and/or max parameter specified."

/-- `paginate`'s computation of `page`:
`max(int(request.GET['page']), 1) if 'page' in request.GET else 1`. -/
def parsePage (req : Request) : Except PyExc Int :=
  match req.page with
  | none => .ok 1
  | some s =>
      match pyInt s with
      | none => .error (.apiException pageSizeErrorMsg)
      | some n => .ok (max n 1)

/-- `paginate`'s computation of `size`:
`min(max(int(request.GET['size']), 0), 20) if 'size' in request.GET else 20`. -/
def parseSize (req : Request) : Except PyExc Int :=
  match req.size with
  | none => .ok 20
  | some s =>
      match pyInt s with
      | none => .error (.apiException pageSizeErrorMsg)
      | some n => .ok (min (max n 0) 20)

/-- The `paginate` decorator: parse and clamp `page` and `size` (raising
`APIException` on a `ValueError`, before the wrapped function is
invoked), then slice the wrapped function's result to
`[(page - 1) * size : page * size]`. -/
def paginateW (fn : Stage α) : Stage α := fun req =>
  match parsePage req with
  | .error e => .error e
  | .ok page =>
      match parseSize req with
      | .error e => .error e
      | .ok size =>
          match fn req with
          | .error e => .error e
          | .ok xs => .ok (pySlice xs ((page - 1) * size).toNat (page * size).toNat)

/-- `minmax`'s parsing of one optional timestamp parameter:
`datetime.fromtimestamp(int(·))`. The timestamp-to-datetime conversion
is an order-preserving embedding of integer seconds, so dates are
compared here as the timestamps themselves. -/
def parseBound (p : Option String) : Except PyExc (Option Int) :=
  match p with
  | none => .ok none
  | some s =>
      match pyInt s with
      | none => .error (.apiException minMaxErrorMsg)
      | some n => .ok (some n)

/-- The date predicate applied by `filter(date__gte=…, date__lte=…)`:
both bounds inclusive, an absent bound unconstrained. -/
def dateWithin (lo hi : Option Int) (d : Int) : Bool :=
  (match lo with | none => true | some m => decide (m ≤ d)) &&
  (match hi with | none => true | some m => decide (d ≤ m))

/-- The `minmax` decorator: parse the optional `min` and `max` parameters
(in that order, raising `APIException` on a `ValueError`, before the
wrapped function is invoked), then refine the wrapped function's query
with `date__gte` / `date__lte` filters; `dateOf` reads the `date` field
the filters compare. -/
def minmaxW (dateOf : α → Int) (fn : Stage α) : Stage α := fun req =>
  match parseBound req.min with
  | .error e => .error e
  | .ok lo =>
      match parseBound req.max with
      | .error e => .error e
      | .ok hi =>
          match fn req with
          | .error e => .error e
          | .ok xs => .ok (xs.filter (fun x => dateWithin lo hi (dateOf x)))

/-- The representation selection at the tail of the `endpoint` wrapper:
`debug` present renders the debug template around the indent-4 re-dump
of the payload (`dumps(loads(json), indent=4)` round-trips the payload
value); otherwise `callback` present yields `'%s(%s)'` with the
JavaScript content type; otherwise the raw JSON with the JSON content
type. -/
def render (req : Request) (payload : JValue) : Response :=
  match req.debug with
  | some _ => .debugView "api/debug.html" "2buntu API Debugger" (dumpsIndent payload)
  | none =>
      match req.callback with
      | some cb => .http (cb ++ "(" ++ dumps payload ++ ")") "application/javascript"
      | none => .http (dumps payload) "application/json"

/-- The `error` payload substituted by `endpoint`'s `except APIException`
clause. -/
def errorPayload (msg : String) : JValue :=
  .jobj [("error", .jstr msg)]

/-- The `endpoint` wrapper's `try`/`except` and rendering, over the
outcome of serializing the inner pipeline: an `APIException` is caught
and replaced by the `{"error": <message>}` payload, every other
exception propagates; the surviving payload goes through representation
selection. -/
def endpointRender (req : Request) (inner : Except PyExc JValue) :
    Except PyExc Response :=
  match inner with
  | .ok v => .ok (render req v)
  | .error (.apiException msg) => .ok (render req (errorPayload msg))
  | .error e => .error e

/-- The full `endpoint` decorator: run the wrapped pipeline, encode its
resulting collection with `ObjectEncoder` (a sliced `QuerySet` reaches
`dumps` as a query set of model instances), then translate errors and
render. -/
def endpointW (md5hex : String → String) (toObj : α → ApiObject)
    (fn : Stage α) (req : Request) : Except PyExc Response :=
  endpointRender req
    (match fn req with
     | .error e => .error e
     | .ok xs => encodeObject md5hex (.querySet (xs.map toObj)))

/-! ## Resource functions -/

/-- The external data store the resource functions query. -/
structure Database where
  articles : List Article
  profiles : List Profile
  categories : List CategoryRow

/-- `articles`: `Article.objects.filter(status=Article.PUBLISHED)`. -/
def articlesResource (db : Database) : List Article :=
  db.articles.filter (fun a => a.status = .published)

/-- `article_by_id`: `Article.objects.filter(pk=id, status=Article.PUBLISHED)`. -/
def articleByIdResource (db : Database) (id : Int) : List Article :=
  db.articles.filter (fun a => a.id = id ∧ a.status = .published)

/-- `authors`: `Profile.objects.all()`. -/
def authorsResource (db : Database) : List Profile :=
  db.profiles

/-- `author_by_id`: `Profile.objects.filter(pk=id)`. -/
def authorByIdResource (db : Database) (id : Int) : List Profile :=
  db.profiles.filter (fun p => p.userId = id)

/-- `articles_by_author`: `Article.objects.filter(author=id, status=Article.PUBLISHED)`. -/
def articlesByAuthorResource (db : Database) (id : Int) : List Article :=
  db.articles.filter (fun a => a.author.id = id ∧ a.status = .published)

/-- `categories`: `Category.objects.all().annotate(num_articles=Count('article'))`.
`Count('article')` counts the article rows whose category foreign key is
this category — with no condition on their status. -/
def categoriesResource (db : Database) : List Category :=
  db.categories.map (fun c =>
    { id := c.id, name := c.name,
      num_articles := ((db.articles.filter (fun a => a.category.id = c.id)).length : Int) })

/-- `articles_by_category`: `Article.objects.filter(category=id, status=Article.PUBLISHED)`. -/
def articlesByCategoryResource (db : Database) (id : Int) : List Article :=
  db.articles.filter (fun a => a.category.id = id ∧ a.status = .published)

/-! ## Composed endpoints (`@endpoint @paginate @minmax`) for the
article listings. -/

/-- The wrapped inner pipeline of the `articles` endpoint (inside the
`endpoint` stage): pagination over date filtering over the resource. -/
def articlesPipeline (db : Database) : Stage Article :=
  paginateW (minmaxW Article.date (fun _ => .ok (articlesResource db)))

def articleByIdPipeline (db : Database) (id : Int) : Stage Article :=
  paginateW (minmaxW Article.date (fun _ => .ok (articleByIdResource db id)))

def articlesByAuthorPipeline (db : Database) (id : Int) : Stage Article :=
  paginateW (minmaxW Article.date (fun _ => .ok (articlesByAuthorResource db id)))

def articlesByCategoryPipeline (db : Database) (id : Int) : Stage Article :=
  paginateW (minmaxW Article.date (fun _ => .ok (articlesByCategoryResource db id)))

/-- The `articles` endpoint, outermost stage included. -/
def articlesEndpoint (md5hex : String → String) (db : Database) :
    Request → Except PyExc Response :=
  endpointW md5hex ApiObject.article (articlesPipeline db)

/-! ## Helper lemmas -/

theorem pySlice_subset {xs : List α} {a b : Nat} :
    ∀ {x : α}, x ∈ pySlice xs a b → x ∈ xs := by
  intro x hx
  exact List.mem_of_mem_take (List.mem_of_mem_drop hx)

theorem paginateW_ok_mem {fn : Stage α} {req : Request} {xs : List α}
    (h : paginateW fn req = .ok xs) {x : α} (hx : x ∈ xs) :
    ∃ ys, fn req = .ok ys ∧ x ∈ ys := by
  unfold paginateW at h
  rcases hpg : parsePage req with e | page <;> rw [hpg] at h
  · exact absurd h (by simp)
  rcases hsz : parseSize req with e | size <;> rw [hsz] at h
  · exact absurd h (by simp)
  rcases hfn : fn req with e | ys <;> rw [hfn] at h
  · exact absurd h (by simp)
  refine ⟨ys, rfl, ?_⟩
  cases h
  exact pySlice_subset hx

theorem minmaxW_ok_mem {dateOf : α → Int} {fn : Stage α} {req : Request}
    {xs : List α} (h : minmaxW dateOf fn req = .ok xs) {x : α} (hx : x ∈ xs) :
    ∃ ys, fn req = .ok ys ∧ x ∈ ys := by
  unfold minmaxW at h
  rcases hlo : parseBound req.min with e | lo <;> rw [hlo] at h
  · exact absurd h (by simp)
  rcases hhi : parseBound req.max with e | hi <;> rw [hhi] at h
  · exact absurd h (by simp)
  rcases hfn : fn req with e | ys <;> rw [hfn] at h
  · exact absurd h (by simp)
  refine ⟨ys, rfl, ?_⟩
  cases h
  exact List.mem_of_mem_filter hx

theorem parseBound_error {p : Option String} {e : PyExc}
    (h : parseBound p = .error e) : e = .apiException minMaxErrorMsg := by
  cases p with
  | none => exact absurd h (by simp [parseBound])
  | some s =>
      simp only [parseBound] at h
      cases hp : pyInt s <;> rw [hp] at h
      · exact (Except.error.inj h).symm
      · exact absurd h (by simp)

/-- Sample inputs used by the closed theorems below. -/
def aliceAuthor : Author :=
  { id := 7, name := "Alice", email := "alice@example.com" }

def aliceProfile : Profile :=
  { userId := 7, name := "Alice", email := "alice@example.com", age := 30,
    location := "Earth", website := "https://example.com", bio := "hi",
    lastLogin := 1400000000 }

/-! ## Claims -/

/-- C1: the claim states that for every Profile the encoder's
`email_hash` is the hash of that same profile's own email.  The code
instead evaluates `md5(article.author.email)` inside `_encode_profile`,
where the name `article` is unbound (it is neither a local, a module
global nor a builtin), so encoding any Profile raises `NameError`
instead of producing a mapping at all — for every hash function and
every profile, including the concrete sample. -/
theorem C1_profile_email_hash_is_name_error :
    (∀ (md5hex : String → String) (p : Profile),
      encodeObject md5hex (.profile p) = .error (.nameError "article")) ∧
    encodeObject (fun s => s) (.profile aliceProfile) =
      .error (.nameError "article") :=
  ⟨fun _ _ => rfl, rfl⟩

/-- C5: the `endpoint` stage catches exactly the `APIException` family,
substituting the `{"error": <message>}` payload; every other exception —
in particular the `TypeError` raised when an unrecognized variant
reaches the encoder — propagates past the boundary unhandled. -/
theorem C5_endpoint_catches_exactly_api_exceptions :
    (∀ (req : Request) (msg : String),
      endpointRender req (.error (.apiException msg)) =
        .ok (render req (errorPayload msg))) ∧
    (∀ (req : Request) (e : PyExc), (∀ msg, e ≠ .apiException msg) →
      endpointRender req (.error e) = .error e) ∧
    (∀ (md5hex : String → String) (tag : String) (req : Request),
      endpointRender req (encodeObject md5hex (.unknown tag)) =
        .error (.typeError (tag ++ " is not JSON serializable"))) := by
  refine ⟨fun req msg => rfl, ?_, fun md5hex tag req => rfl⟩
  intro req e he
  cases e with
  | apiException m => exact absurd rfl (he m)
  | typeError m => rfl
  | nameError n => rfl

/-- C5 witness: the hypothesis of the second conjunct discharged at a
concrete non-API exception, which indeed propagates. -/
theorem C5_witness :
    endpointRender {} (.error (.typeError "X is not JSON serializable")) =
      .error (.typeError "X is not JSON serializable") :=
  C5_endpoint_catches_exactly_api_exceptions.2.1 {}
    (.typeError "X is not JSON serializable")
    (fun _ h => PyExc.noConfusion h)

/-- C6: representation selection is in fixed priority order: `debug`
present renders the debug view (even when `callback` is also present);
otherwise `callback` present yields exactly `<callback>(<json>)` with
the JavaScript media type; otherwise the raw JSON with the JSON media
type. -/
theorem C6_representation_selection :
    ∀ (req : Request) (v : JValue),
    (req.debug.isSome →
      render req v =
        .debugView "api/debug.html" "2buntu API Debugger" (dumpsIndent v)) ∧
    (req.debug = none → ∀ cb, req.callback = some cb →
      render req v =
        .http (cb ++ "(" ++ dumps v ++ ")") "application/javascript") ∧
    (req.debug = none → req.callback = none →
      render req v = .http (dumps v) "application/json") := by
  intro req v
  refine ⟨?_, ?_, ?_⟩
  · intro hd
    rcases hdbg : req.debug with _ | d
    · rw [hdbg] at hd; exact absurd hd (by simp)
    · simp [render, hdbg]
  · intro hd cb hcb
    simp [render, hd, hcb]
  · intro hd hcb
    simp [render, hd, hcb]

/-- C6 witness: with `debug=1&callback=foo` the debug view wins, with
only `callback=foo` the body is exactly `foo(<json>)`, with neither the
raw JSON is returned. -/
theorem C6_witness :
    render { debug := some "1", callback := some "foo" } (.jarr []) =
      .debugView "api/debug.html" "2buntu API Debugger" "[]" ∧
    render { callback := some "foo" } (.jarr []) =
      .http "foo([])" "application/javascript" ∧
    render {} (.jarr []) = .http "[]" "application/json" :=
  ⟨(C6_representation_selection { debug := some "1", callback := some "foo" }
      (.jarr [])).1 (by decide),
   (C6_representation_selection { callback := some "foo" } (.jarr [])).2.1
      rfl "foo" rfl,
   (C6_representation_selection {} (.jarr [])).2.2 rfl rfl⟩

/-- C10: the `{"error": <message>}` payload substituted for an
`APIException` goes through the same representation selection as a
normal payload: with a callback (and no debug flag) the body is exactly
`<callback>({"error": <message>})` with the JavaScript media type, and
with the debug flag the error payload is pretty-printed into the debug
view. -/
theorem C10_error_payload_same_rendering :
    ∀ (req : Request) (msg : String),
    (req.debug = none → ∀ cb, req.callback = some cb →
      endpointRender req (.error (.apiException msg)) =
        .ok (.http (cb ++ "(" ++ dumps (errorPayload msg) ++ ")")
              "application/javascript")) ∧
    (req.debug.isSome →
      endpointRender req (.error (.apiException msg)) =
        .ok (.debugView "api/debug.html" "2buntu API Debugger"
              (dumpsIndent (errorPayload msg)))) := by
  intro req msg
  constructor
  · intro hd cb hcb
    simp [endpointRender, render, hd, hcb]
  · intro hd
    rcases hdbg : req.debug with _ | d
    · rw [hdbg] at hd; exact absurd hd (by simp)
    · simp [endpointRender, render, hdbg]

/-- C10 witness: at a concrete request and message, the JSONP-wrapped
error body and the pretty-printed debug body, spelled out. -/
theorem C10_witness :
    endpointRender { callback := some "foo" }
        (.error (.apiException "boom")) =
      .ok (.http "foo(\x7b\"error\": \"boom\"\x7d)" "application/javascript") ∧
    endpointRender { debug := some "1" }
        (.error (.apiException "boom")) =
      .ok (.debugView "api/debug.html" "2buntu API Debugger"
            "\x7b\n    \"error\": \"boom\"\n\x7d") :=
  ⟨(C10_error_payload_same_rendering { callback := some "foo" } "boom").1
      rfl "foo" rfl,
   (C10_error_payload_same_rendering { debug := some "1" } "boom").2
      (by decide)⟩

/-- Unfolding of `paginateW` over a constant inner collection. -/
theorem paginateW_const (xs : List α) (r : Request) :
    paginateW (fun _ => Except.ok xs) r =
      match parsePage r with
      | .error e => .error e
      | .ok page =>
          match parseSize r with
          | .error e => .error e
          | .ok size =>
              .ok (pySlice xs ((page - 1) * size).toNat ((page * size).toNat)) := by
  unfold paginateW
  cases parsePage r <;> cases parseSize r <;> rfl

/-- C2: with page p ≥ 1 and size s ∈ [0, 20], the pagination stage
returns exactly the contiguous slice of the inner collection from index
(p−1)·s (inclusive) to p·s (exclusive) in the collection's existing
order — the element at offset i of the result is the element at index
(p−1)·s + i of the collection, for i < s — and returns an empty
collection (not an error) whenever (p−1)·s ≥ N. -/
theorem C2_pagination_bounds (req : Request) (sp ss : String) (p s : Int)
    (hpq : req.page = some sp) (hpi : pyInt sp = some p) (hp1 : 1 ≤ p)
    (hsq : req.size = some ss) (hsi : pyInt ss = some s) (hs0 : 0 ≤ s)
    (hs20 : s ≤ 20) (xs : List α) :
    paginateW (fun _ => Except.ok xs) req =
      .ok ((xs.drop ((p - 1) * s).toNat).take s.toNat) ∧
    (∀ i : Nat,
      ((xs.drop ((p - 1) * s).toNat).take s.toNat)[i]? =
        if i < s.toNat then xs[((p - 1) * s).toNat + i]? else none) ∧
    ((xs.length : Int) ≤ (p - 1) * s →
      paginateW (fun _ => Except.ok xs) req = .ok []) := by
  have hpage : parsePage req = .ok p := by
    simp [parsePage, hpq, hpi, max_eq_left hp1]
  have hsize : parseSize req = .ok s := by
    simp [parseSize, hsq, hsi, max_eq_left hs0, min_eq_left hs20]
  have h0 : (0 : Int) ≤ (p - 1) * s := mul_nonneg (by omega) hs0
  have hnat : (p * s).toNat = ((p - 1) * s).toNat + s.toNat := by
    have h1 : p * s = (p - 1) * s + s := by ring
    rw [h1, Int.toNat_add h0 hs0]
  have hmain : paginateW (fun _ => Except.ok xs) req =
      .ok ((xs.drop ((p - 1) * s).toNat).take s.toNat) := by
    rw [paginateW_const, hpage, hsize]
    dsimp only
    unfold pySlice
    rw [hnat, List.drop_take, Nat.add_sub_cancel_left]
  refine ⟨hmain, ?_, ?_⟩
  · intro i
    by_cases hi : i < s.toNat
    · rw [if_pos hi, List.getElem?_take_of_lt hi, List.getElem?_drop]
    · rw [if_neg hi, List.getElem?_take_eq_none (Nat.le_of_not_lt hi)]
  · intro hN
    have ha : xs.length ≤ ((p - 1) * s).toNat := by omega
    rw [hmain, List.drop_eq_nil_iff.mpr ha, List.take_nil]

/-- C2 witness: page 2 of size 3 over an eight-element collection is the
slice at indices 3, 4, 5. -/
theorem C2_witness :
    paginateW (α := Nat) (fun _ => Except.ok [10, 11, 12, 13, 14, 15, 16, 17])
        { page := some "2", size := some "3" } = .ok [13, 14, 15] := by
  have h := (C2_pagination_bounds { page := some "2", size := some "3" }
      "2" "3" 2 3 rfl (by decide) (by decide) rfl (by decide) (by decide)
      (by decide) [10, 11, 12, 13, 14, 15, 16, 17]).1
  rw [h]
  rfl

/-- C3: the pagination stage with a requested size above 20 behaves
identically to size=20; with a negative requested size it behaves
identically to size=0 and yields an empty page whatever the (valid or
absent) page parameter; with a requested page below 1 it behaves
identically to page=1. -/
theorem C3_parameter_clamping (req : Request) (xs : List α) :
    (∀ ss s, pyInt ss = some s → 20 < s →
      paginateW (fun _ => Except.ok xs) { req with size := some ss } =
        paginateW (fun _ => Except.ok xs) { req with size := some "20" }) ∧
    (∀ ss s, pyInt ss = some s → s < 0 →
      paginateW (fun _ => Except.ok xs) { req with size := some ss } =
        paginateW (fun _ => Except.ok xs) { req with size := some "0" } ∧
      (∀ p', parsePage req = .ok p' →
        paginateW (fun _ => Except.ok xs) { req with size := some ss } =
          .ok [])) ∧
    (∀ sp p, pyInt sp = some p → p < 1 →
      paginateW (fun _ => Except.ok xs) { req with page := some sp } =
        paginateW (fun _ => Except.ok xs) { req with page := some "1" }) := by
  have h20 : pyInt "20" = some 20 := by decide
  have hz : pyInt "0" = some 0 := by decide
  have h1 : pyInt "1" = some 1 := by decide
  refine ⟨?_, ?_, ?_⟩
  · intro ss s hsi hs
    have ha : parseSize { req with size := some ss } = .ok 20 := by
      simp only [parseSize, hsi]
      congr 1
      omega
    have hb : parseSize { req with size := some "20" } = .ok 20 := by
      simp only [parseSize, h20]
      rfl
    have hp : parsePage { req with size := some ss } =
        parsePage { req with size := some "20" } := rfl
    rw [paginateW_const, paginateW_const, ha, hb, hp]
  · intro ss s hsi hs
    have ha : parseSize { req with size := some ss } = .ok 0 := by
      simp only [parseSize, hsi]
      congr 1
      omega
    have hb : parseSize { req with size := some "0" } = .ok 0 := by
      simp only [parseSize, hz]
      rfl
    have hp : parsePage { req with size := some ss } =
        parsePage { req with size := some "0" } := rfl
    refine ⟨by rw [paginateW_const, paginateW_const, ha, hb, hp], ?_⟩
    intro p' hpp
    have hpp' : parsePage { req with size := some ss } = .ok p' := hpp
    rw [paginateW_const, hpp', ha]
    simp [pySlice]
  · intro sp p hpi hp
    have ha : parsePage { req with page := some sp } = .ok 1 := by
      simp only [parsePage, hpi]
      congr 1
      omega
    have hb : parsePage { req with page := some "1" } = .ok 1 := by
      simp only [parsePage, h1]
      rfl
    have hs : parseSize { req with page := some sp } =
        parseSize { req with page := some "1" } := rfl
    rw [paginateW_const, paginateW_const, ha, hb, hs]

/-- C3 witness: size 1000 behaves as size 20, size −5 yields the empty
page at page 5, and page −2 behaves as page 1, on concrete requests and
a concrete collection. -/
theorem C3_witness :
    paginateW (α := Nat) (fun _ => Except.ok [1, 2, 3])
        { size := some "1000" } =
      paginateW (fun _ => Except.ok [1, 2, 3]) { size := some "20" } ∧
    paginateW (α := Nat) (fun _ => Except.ok [1, 2, 3])
        { page := some "5", size := some "-5" } = .ok [] ∧
    paginateW (α := Nat) (fun _ => Except.ok [1, 2, 3])
        { page := some "-2" } =
      paginateW (fun _ => Except.ok [1, 2, 3]) { page := some "1" } :=
  ⟨(C3_parameter_clamping {} [1, 2, 3]).1 "1000" 1000 (by decide) (by decide),
   ((C3_parameter_clamping { page := some "5" } [1, 2, 3]).2.1 "-5" (-5)
       (by decide) (by decide)).2 5 rfl,
   (C3_parameter_clamping {} [1, 2, 3]).2.2 "-2" (-2) (by decide) (by decide)⟩

instance {ε α : Type} [DecidableEq ε] [DecidableEq α] :
    DecidableEq (Except ε α) := fun a b =>
  match a, b with
  | .error e, .error f =>
      if h : e = f then isTrue (by rw [h])
      else isFalse (fun hh => h (Except.error.inj hh))
  | .error _, .ok _ => isFalse (fun hh => Except.noConfusion hh)
  | .ok _, .error _ => isFalse (fun hh => Except.noConfusion hh)
  | .ok x, .ok y =>
      if h : x = y then isTrue (by rw [h])
      else isFalse (fun hh => h (Except.ok.inj hh))

theorem parsePage_error {req : Request} {e : PyExc}
    (h : parsePage req = .error e) : e = .apiException pageSizeErrorMsg := by
  unfold parsePage at h
  split at h
  · exact absurd h (by simp)
  · split at h
    · exact (Except.error.inj h).symm
    · exact absurd h (by simp)

theorem parsePage_invalid {req : Request} {sp : String}
    (h : req.page = some sp) (hn : pyInt sp = none) :
    parsePage req = .error (.apiException pageSizeErrorMsg) := by
  simp [parsePage, h, hn]

theorem parseSize_invalid {req : Request} {ss : String}
    (h : req.size = some ss) (hn : pyInt ss = none) :
    parseSize req = .error (.apiException pageSizeErrorMsg) := by
  simp [parseSize, h, hn]

/-- `paginate` raises its fixed `APIException` whenever the `page` or
`size` parameter fails to parse, whatever the wrapped function. -/
theorem paginateW_invalid {fn : Stage α} {req : Request} (sp : String)
    (hor : req.page = some sp ∨ req.size = some sp) (hnone : pyInt sp = none) :
    paginateW fn req = .error (.apiException pageSizeErrorMsg) := by
  unfold paginateW
  rcases hpg : parsePage req with e | p
  · rw [parsePage_error hpg]
  · rcases hor with h | h
    · rw [parsePage_invalid h hnone] at hpg
      exact absurd hpg (by simp)
    · rw [parseSize_invalid h hnone]

/-- `minmax` raises its fixed `APIException` whenever the `min` or `max`
parameter fails to parse, whatever the wrapped function. -/
theorem minmaxW_invalid {dateOf : α → Int} {fn : Stage α} {req : Request}
    (sm : String) (hor : req.min = some sm ∨ req.max = some sm)
    (hnone : pyInt sm = none) :
    minmaxW dateOf fn req = .error (.apiException minMaxErrorMsg) := by
  unfold minmaxW
  rcases hmin : parseBound req.min with e | lo
  · rw [parseBound_error hmin]
  · rcases hor with h | h
    · have hbad : parseBound req.min = .error (.apiException minMaxErrorMsg) := by
        rw [h]
        simp [parseBound, hnone]
      rw [hbad] at hmin
      exact absurd hmin (by simp)
    · have hmax : parseBound req.max = .error (.apiException minMaxErrorMsg) := by
        rw [h]
        simp [parseBound, hnone]
      rw [hmax]

theorem paginateW_propagates {fn : Stage α} {req : Request} {p s : Int}
    {e : PyExc} (hp : parsePage req = .ok p) (hs : parseSize req = .ok s)
    (h : fn req = .error e) : paginateW fn req = .error e := by
  unfold paginateW
  rw [hp, hs, h]

theorem parsePage_ok_of_parseable {req : Request}
    (h : ∀ sp, req.page = some sp → (pyInt sp).isSome) :
    ∃ p, parsePage req = .ok p := by
  cases hq : req.page with
  | none => exact ⟨1, by simp [parsePage, hq]⟩
  | some sp =>
      have hs := h sp hq
      cases hp : pyInt sp with
      | none => rw [hp] at hs; exact absurd hs (by simp)
      | some n => exact ⟨max n 1, by simp [parsePage, hq, hp]⟩

theorem parseSize_ok_of_parseable {req : Request}
    (h : ∀ ss, req.size = some ss → (pyInt ss).isSome) :
    ∃ s, parseSize req = .ok s := by
  cases hq : req.size with
  | none => exact ⟨20, by simp [parseSize, hq]⟩
  | some ss =>
      have hs := h ss hq
      cases hp : pyInt ss with
      | none => rw [hp] at hs; exact absurd hs (by simp)
      | some n => exact ⟨min (max n 0) 20, by simp [parseSize, hq, hp]⟩

/-- The `endpoint` stage over a pipeline that raised an `APIException`. -/
theorem endpointW_apiError {md5hex : String → String} {toObj : α → ApiObject}
    {fn : Stage α} {req : Request} {msg : String}
    (h : fn req = .error (.apiException msg)) :
    endpointW md5hex toObj fn req = .ok (render req (errorPayload msg)) := by
  unfold endpointW
  rw [h]
  rfl

/-- C4 counterexample: at a request whose `page` and `min` parameters are
both unparseable, the response payload is the page/size error — not the
min/max error the claim requires for every request with an unparseable
`min`; `paginate` sits outside `minmax` and wins. -/
theorem C4_counterexample :
    ¬ (endpointW (fun s => s) ApiObject.article
          (paginateW (minmaxW Article.date (fun _ => Except.ok ([] : List Article))))
          { page := some "abc", min := some "xyz" } =
        .ok (render { page := some "abc", min := some "xyz" }
              (errorPayload minMaxErrorMsg))) := by
  decide

/-- C4 (amended): a request with an unparseable `page` or `size` yields
exactly the payload `{"error": "Invalid page and/or size parameter
specified."}`; a request with an unparseable `min` or `max` whose `page`
and `size` (when present) do parse yields exactly the payload
`{"error": "Invalid min and/or max parameter specified."}`. In both
cases the result is a rendered response (never a raw exception), and it
is the same for every resource function `fn` — the resource function is
never invoked. -/
theorem C4_invalid_params {α : Type} (req : Request) :
    ((∃ sp, (req.page = some sp ∨ req.size = some sp) ∧ pyInt sp = none) →
      ∀ (md5hex : String → String) (toObj : α → ApiObject) (dateOf : α → Int)
        (fn : Stage α),
        endpointW md5hex toObj (paginateW (minmaxW dateOf fn)) req =
          .ok (render req (errorPayload pageSizeErrorMsg))) ∧
    ((∃ sm, (req.min = some sm ∨ req.max = some sm) ∧ pyInt sm = none) →
      (∀ sp, req.page = some sp → (pyInt sp).isSome) →
      (∀ ss, req.size = some ss → (pyInt ss).isSome) →
      ∀ (md5hex : String → String) (toObj : α → ApiObject) (dateOf : α → Int)
        (fn : Stage α),
        endpointW md5hex toObj (paginateW (minmaxW dateOf fn)) req =
          .ok (render req (errorPayload minMaxErrorMsg))) := by
  constructor
  · rintro ⟨sp, hor, hnone⟩ md5hex toObj dateOf fn
    exact endpointW_apiError (paginateW_invalid sp hor hnone)
  · rintro ⟨sm, hor, hnone⟩ hpage hsize md5hex toObj dateOf fn
    obtain ⟨p, hp⟩ := parsePage_ok_of_parseable hpage
    obtain ⟨s, hs⟩ := parseSize_ok_of_parseable hsize
    exact endpointW_apiError
      (paginateW_propagates hp hs (minmaxW_invalid sm hor hnone))

/-- C4 witness: the amended claim at two concrete requests — `page=abc`
yields the page/size error payload as raw JSON, and `min=xyz` (with no
page/size parameters) yields the min/max error payload. -/
theorem C4_witness :
    endpointW (fun s => s) ApiObject.article
        (paginateW (minmaxW Article.date (fun _ => Except.ok ([] : List Article))))
        { page := some "abc" } =
      .ok (render { page := some "abc" } (errorPayload pageSizeErrorMsg)) ∧
    endpointW (fun s => s) ApiObject.article
        (paginateW (minmaxW Article.date (fun _ => Except.ok ([] : List Article))))
        { min := some "xyz" } =
      .ok (render { min := some "xyz" } (errorPayload minMaxErrorMsg)) :=
  ⟨(C4_invalid_params { page := some "abc" }).1
      ⟨"abc", Or.inl rfl, by decide⟩ (fun s => s) ApiObject.article
      Article.date (fun _ => Except.ok []),
   (C4_invalid_params { min := some "xyz" }).2
      ⟨"xyz", Or.inl rfl, by decide⟩
      (fun sp h => Option.noConfusion h) (fun ss h => Option.noConfusion h)
      (fun s => s) ApiObject.article Article.date (fun _ => Except.ok [])⟩

/-! Sample rows for the closed theorems. -/

def pubArticle : Article :=
  { id := 1, title := "Hello", author := aliceAuthor,
    category := { id := 5, name := "Linux" }, renderedBody := "<p>hi</p>",
    cc_license := false, date := 100, status := .published }

def draftArticle : Article :=
  { id := 2, title := "Draft", author := aliceAuthor,
    category := { id := 5, name := "Linux" }, renderedBody := "",
    cc_license := false, date := 50, status := .draft }

def sampleDb : Database :=
  { articles := [pubArticle, draftArticle], profiles := [aliceProfile],
    categories := [{ id := 5, name := "Linux" }] }

theorem mem_articlesResource {db : Database} {a : Article}
    (h : a ∈ articlesResource db) : a.status = .published := by
  simp [articlesResource, List.mem_filter] at h
  exact h.2

theorem mem_articleByIdResource {db : Database} {id : Int} {a : Article}
    (h : a ∈ articleByIdResource db id) : a.status = .published := by
  simp [articleByIdResource, List.mem_filter] at h
  exact h.2.2

theorem mem_articlesByAuthorResource {db : Database} {id : Int} {a : Article}
    (h : a ∈ articlesByAuthorResource db id) : a.status = .published := by
  simp [articlesByAuthorResource, List.mem_filter] at h
  exact h.2.2

theorem mem_articlesByCategoryResource {db : Database} {id : Int} {a : Article}
    (h : a ∈ articlesByCategoryResource db id) : a.status = .published := by
  simp [articlesByCategoryResource, List.mem_filter] at h
  exact h.2.2

/-- C7: across the four article-listing pipelines, whatever the
pagination and date-filter parameters, an article in the returned
collection always has published status. -/
theorem C7_status_filtering (db : Database) (req : Request) (id : Int)
    (xs : List Article) (a : Article)
    (h : articlesPipeline db req = .ok xs ∨
         articleByIdPipeline db id req = .ok xs ∨
         articlesByAuthorPipeline db id req = .ok xs ∨
         articlesByCategoryPipeline db id req = .ok xs)
    (ha : a ∈ xs) : a.status = .published := by
  have key : ∀ (res : List Article),
      (∀ b, b ∈ res → b.status = .published) →
      paginateW (minmaxW Article.date (fun _ => Except.ok res)) req = .ok xs →
      a.status = .published := by
    intro res hres hok
    obtain ⟨ys, hys, hay⟩ := paginateW_ok_mem hok ha
    obtain ⟨zs, hzs, haz⟩ := minmaxW_ok_mem hys hay
    obtain rfl : res = zs := Except.ok.inj hzs
    exact hres a haz
  rcases h with h | h | h | h
  · exact key _ (fun b hb => mem_articlesResource hb) h
  · exact key _ (fun b hb => mem_articleByIdResource hb) h
  · exact key _ (fun b hb => mem_articlesByAuthorResource hb) h
  · exact key _ (fun b hb => mem_articlesByCategoryResource hb) h

/-- C7 witness: on a concrete store holding one published and one draft
article, the `articles` pipeline returns exactly the published one, and
the theorem applies to it. -/
theorem C7_witness : pubArticle.status = .published :=
  C7_status_filtering sampleDb {} 0 [pubArticle] pubArticle
    (Or.inl (by decide)) (by decide)

/-- C8 counterexample: on a store whose only category holds one published
and one draft article, the `categories` resource annotates the category
with article count 2 — the draft is counted — while the number of its
published articles is 1. -/
theorem C8_counterexample :
    categoriesResource sampleDb =
      [{ id := 5, name := "Linux", num_articles := 2 }] ∧
    ((sampleDb.articles.filter
        (fun a => a.category.id = 5 ∧ a.status = .published)).length : Int) = 1 ∧
    (2 : Int) ≠ 1 :=
  ⟨by decide, by decide, by decide⟩

/-- C8 (amended): for every category returned by the `categories`
resource, the annotated article count equals the number of all articles
associated with that category, regardless of their status — articles
with non-published status are counted too. -/
theorem C8_category_counts_all_articles (db : Database) (c : Category)
    (hc : c ∈ categoriesResource db) :
    c.num_articles =
      ((db.articles.filter (fun a => a.category.id = c.id)).length : Int) := by
  simp only [categoriesResource, List.mem_map] at hc
  obtain ⟨row, hrow, rfl⟩ := hc
  rfl

/-- C8 witness: the amended count on the concrete store. -/
theorem C8_witness :
    ({ id := 5, name := "Linux", num_articles := 2 } : Category).num_articles =
      ((sampleDb.articles.filter
          (fun a => a.category.id =
            ({ id := 5, name := "Linux", num_articles := 2 } : Category).id)).length :
        Int) :=
  C8_category_counts_all_articles sampleDb
    { id := 5, name := "Linux", num_articles := 2 } (by decide)

theorem dateWithin_iff {lo hi : Option Int} {d : Int} :
    dateWithin lo hi d = true ↔
      (∀ m, lo = some m → m ≤ d) ∧ (∀ m, hi = some m → d ≤ m) := by
  cases lo <;> cases hi <;> simp [dateWithin]

/-- C9: with integer-parseable (or absent) `min` and `max` parameters,
the date filter keeps exactly the items within the inclusive bounds: an
item with date equal to a bound is kept, an item strictly outside a
bound (in particular one second outside) is dropped, and an absent bound
imposes no constraint on its side. -/
theorem C9_date_filter_inclusive {α : Type} (dateOf : α → Int) (req : Request)
    (xs : List α) (lo hi : Option Int)
    (hlo : parseBound req.min = .ok lo) (hhi : parseBound req.max = .ok hi) :
    ∃ ys, minmaxW dateOf (fun _ => Except.ok xs) req = .ok ys ∧
      ∀ x, x ∈ ys ↔ x ∈ xs ∧
        (∀ m, lo = some m → m ≤ dateOf x) ∧
        (∀ m, hi = some m → dateOf x ≤ m) := by
  refine ⟨xs.filter (fun x => dateWithin lo hi (dateOf x)), ?_, ?_⟩
  · unfold minmaxW
    rw [hlo, hhi]
  · intro x
    rw [List.mem_filter]
    exact and_congr_right fun _ => dateWithin_iff

/-- C9 witness: with `min=10` and `max=20` over dates 9, 10, 15, 20, 21,
membership in the filtered collection is exactly the inclusive-bounds
condition (9 and 21 — one second outside — drop out; 10 and 20 stay). -/
theorem C9_witness :
    ∃ ys, minmaxW (fun d => d) (fun _ => Except.ok [(9 : Int), 10, 15, 20, 21])
        { min := some "10", max := some "20" } = .ok ys ∧
      ∀ x, x ∈ ys ↔ x ∈ [(9 : Int), 10, 15, 20, 21] ∧
        (∀ m, some (10 : Int) = some m → m ≤ x) ∧
        (∀ m, some (20 : Int) = some m → x ≤ m) :=
  C9_date_filter_inclusive (fun d => d) { min := some "10", max := some "20" }
    [(9 : Int), 10, 15, 20, 21] (some 10) (some 20) (by decide) (by decide)

end TwoBuntu

example : TwoBuntu.pyInt "17" = some 17 := by decide
example : TwoBuntu.pyInt "-5" = some (-5) := by decide
example : TwoBuntu.pyInt "abc" = none := by decide
example : TwoBuntu.pyInt "" = none := by decide
example : TwoBuntu.pySlice [0, 1, 2, 3, 4] 2 4 = [2, 3] := by decide
example : TwoBuntu.dumps (.jobj [("error", .jstr "oops")]) = "\x7b\"error\": \"oops\"\x7d" := by rfl
